import Mathlib

/-!
Verification of the connect-now-room signaling core (src/src/components/VideoCall.tsx).

The source file contains several evolutionary variants of one React component.
The definitions below are a shallow embedding of the handlers of the mature
variant (the third copy in VideoCall.tsx, lines 1796-3100, equal in the
modelled parts to the second copy at lines 739-1795), plus the early variant
(first copy, lines 1-738) where a claim's cited code lives only there
(the `webrtc_candidate` buffering/flush of the early variant); those carry a
`V1` suffix.  React refs, state hooks and closure variables become fields of
`CallState`; each channel/connection callback becomes a pure function
`CallState → payload → CallState × List Effect` where `Effect` records the
outward actions (channel sends, WebRTC engine calls, scheduled timers, UI).
Asynchronous WebRTC engine calls are modelled on their success path except
where a claim is about the error path (`createOffer` takes an `ok` flag for
its try/catch).  `setTimeout` callbacks that merely defer work on the same
event queue are modelled as running immediately, keeping their own guards.
-/

namespace ConnectNow

/-- ConnectionStatus union type, VideoCall.tsx lines 1813-1821. -/
inductive ConnectionStatus
  | initializing
  | waiting_for_participant
  | requesting_approval
  | signaling
  | connecting
  | connected
  | disconnected
  | failed
deriving DecidableEq, Repr

/-- RTCPeerConnectionState values observed by onconnectionstatechange.
`fresh` stands for the browser's "new" state, for which the handler has no
branch. -/
inductive PeerConnState
  | fresh
  | connecting
  | connected
  | disconnected
  | failed
  | closed
deriving DecidableEq, Repr

/-- An RTCSessionDescription payload `\x7b type, sdp \x7d` as broadcast on the wire. -/
structure SessionDesc where
  sdpType : String
  sdp : String
deriving DecidableEq, Repr

/-- An RTCIceCandidate, opaque to the signaling logic. -/
structure IceCandidate where
  payload : String
deriving DecidableEq, Repr

/-- Payload of a `webrtc_offer` broadcast (mature variant):
`\x7b offer, candidates, from \x7d`, VideoCall.tsx lines 2443-2450.  The source
field `from` is a Lean keyword and is rendered `from_`. -/
structure OfferPayload where
  offer : SessionDesc
  candidates : List IceCandidate
  from_ : String
deriving DecidableEq, Repr

/-- Payload of a `webrtc_answer` broadcast: `\x7b answer, candidates, from \x7d`,
VideoCall.tsx lines 2665-2672. -/
structure AnswerPayload where
  answer : SessionDesc
  candidates : List IceCandidate
  from_ : String
deriving DecidableEq, Repr

/-- The broadcast messages this participant sends.  Only the fields the
verified claims inspect are carried: the negotiated SDP bodies and gathered
candidate batches attached to offers/answers come from the WebRTC engine and
are elided, keeping the sender identity. -/
inductive WireMsg
  | join_approved (joinerId : String)
  | join_rejected (joinerId : String)
  | joiner_ready (joinerId : String)
  | webrtc_offer (from_ : String)
  | webrtc_answer (from_ : String)
  | ice_candidate (candidate : IceCandidate) (from_ : String)
deriving DecidableEq, Repr

/-- Outward actions performed by the handlers. -/
inductive Effect
  | send (m : WireMsg)
  | setRemoteDescription (d : SessionDesc)
  | addIceCandidate (c : IceCandidate)
  | scheduleCreateOffer (delayMs : Nat)
  | scheduleIceRestartOffer (delayMs : Nat)
  | scheduleOfferRetry (delayMs : Nat)
  | showApprovalDialog (key : String)
  | toast
  | navigateHome
deriving DecidableEq, Repr

/-- Per-participant state: the refs (`isOrganizerRef`, `isApprovedRef`,
`retryCountRef`, `pendingJoinerId`, ...), React state hooks and the closure
variables of `setupWebRTC` (`hasCreatedOffer`, `hasProcessedOffer`,
`pendingIceCandidates`, `pendingOffer`, `offerSent`, `answerSent`), plus the
WebRTC engine's `remoteDescription` which the handlers branch on.  The
defaults are the initial values from the source. -/
structure CallState where
  clientId : String
  isOrganizer : Bool := false
  isApproved : Bool := false
  hasCreatedOffer : Bool := false
  hasProcessedOffer : Bool := false
  pendingIceCandidates : List IceCandidate := []
  pendingOffer : Option OfferPayload := none
  offerSent : Bool := false
  answerSent : Bool := false
  retryCount : Nat := 0
  connectionStatus : ConnectionStatus := ConnectionStatus.initializing
  remoteDescription : Option SessionDesc := none
  pendingJoinerId : Option String := none
  showJoinRequest : Bool := false
  userDisconnected : Bool := false
  isRemoteConnected : Bool := false
deriving DecidableEq, Repr

/-- Initial state of a freshly mounted participant with the given client id. -/
def initialCallState (clientId : String) : CallState := { clientId := clientId }

/-- maxRetries constant, VideoCall.tsx line 1852. -/
def maxRetries : Nat := 3

/-- JavaScript's default `Array.prototype.sort` comparator on strings:
lexicographic comparison of the code sequences, embedded as the order on the
strings' character lists. -/
def jsStrLe (a b : String) : Bool := a.data ≤ b.data

/-- Organizer election of the presence `sync` handler, VideoCall.tsx lines
2545-2547: sort the presence keys, the local participant is first iff its id
heads the sorted list. -/
def electedOrganizer (clientId : String) (participants : List String) : Bool :=
  (participants.mergeSort jsStrLe).head? == some clientId

/-- Presence `sync` handler, VideoCall.tsx lines 2540-2558: recompute the
role; the organizer self-approves; a joiner seeing more than one participant
shows `requesting_approval`. -/
def onPresenceSync (st : CallState) (participants : List String) :
    CallState × List Effect :=
  let isFirst := electedOrganizer st.clientId participants
  if isFirst then
    ({ st with isOrganizer := true, isApproved := true }, [])
  else if participants.length > 1 then
    ({ st with isOrganizer := false,
               connectionStatus := ConnectionStatus.requesting_approval }, [])
  else
    ({ st with isOrganizer := false }, [])

/-- Presence `join` handler, VideoCall.tsx lines 2560-2574. -/
def onPresenceJoin (st : CallState) (key : String) : CallState × List Effect :=
  let st1 :=
    if key ≠ st.clientId then
      { st with userDisconnected := false, isRemoteConnected := false,
                connectionStatus := ConnectionStatus.waiting_for_participant }
    else st
  if st1.isOrganizer = true ∧ key ≠ st1.clientId then
    ({ st1 with connectionStatus := ConnectionStatus.requesting_approval,
                pendingJoinerId := some key, showJoinRequest := true },
     [Effect.showApprovalDialog key])
  else (st1, [])

/-- Presence `leave` handler, VideoCall.tsx lines 2576-2586. -/
def onPresenceLeave (st : CallState) (key : String) : CallState × List Effect :=
  if key ≠ st.clientId then
    ({ st with userDisconnected := true }, [Effect.toast])
  else (st, [])

/-- The offer-processing body shared between the approved `webrtc_offer`
branch (VideoCall.tsx lines 2740-2805) and the buffered-offer replay inside
`join_approved` (lines 2607-2679), success path: set the one-shot flag, apply
the remote description, apply the candidate batch attached to the offer,
create and broadcast the answer. -/
def processOffer (st : CallState) (p : OfferPayload) : CallState × List Effect :=
  let st1 := { st with hasProcessedOffer := true,
                       connectionStatus := ConnectionStatus.signaling }
  let st2 := { st1 with remoteDescription := some p.offer }
  let st3 := { st2 with connectionStatus := ConnectionStatus.connecting }
  let st4 := { st3 with answerSent := true }
  (st4,
   Effect.setRemoteDescription p.offer ::
     p.candidates.map Effect.addIceCandidate ++
       [Effect.send (WireMsg.webrtc_answer st.clientId)])

/-- Broadcast `join_approved` handler, VideoCall.tsx lines 2587-2690: the
addressed joiner becomes approved; a buffered offer, if any, is replayed (the
source defers the replay by a 100ms setTimeout that re-checks
`hasProcessedOffer`; the replay is modelled as running immediately, keeping
that guard); with no buffered offer the joiner signals readiness. -/
def onJoinApproved (st : CallState) (joinerId : String) : CallState × List Effect :=
  if joinerId = st.clientId then
    let st1 := { st with isApproved := true,
                         connectionStatus := ConnectionStatus.signaling }
    match st1.pendingOffer with
    | some bufferedOffer =>
        let st2 := { st1 with pendingOffer := none }
        if st2.hasProcessedOffer then (st2, [Effect.toast])
        else
          let r := processOffer st2 bufferedOffer
          (r.1, Effect.toast :: r.2)
    | none =>
        (st1, [Effect.toast, Effect.send (WireMsg.joiner_ready st.clientId)])
  else (st, [])

/-- Broadcast `join_rejected` handler, VideoCall.tsx lines 2691-2703. -/
def onJoinRejected (st : CallState) (joinerId : String) : CallState × List Effect :=
  if joinerId = st.clientId then (st, [Effect.toast, Effect.navigateHome])
  else (st, [])

/-- Broadcast `joiner_ready` handler, VideoCall.tsx lines 2704-2714: the
organizer schedules offer creation after a 500ms delay. -/
def onJoinerReady (st : CallState) (joinerId : String) : CallState × List Effect :=
  if st.isOrganizer = true ∧ joinerId ≠ st.clientId then
    (st, [Effect.scheduleCreateOffer 500])
  else (st, [])

/-- Broadcast `webrtc_offer` handler, VideoCall.tsx lines 2715-2811:
echo-guard, organizer-guard, buffer when not yet approved (latest wins),
one-shot guard, then process. -/
def onWebrtcOffer (st : CallState) (p : OfferPayload) : CallState × List Effect :=
  if p.from_ = st.clientId then (st, [])
  else if st.isOrganizer = true then (st, [])
  else if st.isApproved = false then ({ st with pendingOffer := some p }, [])
  else if st.hasProcessedOffer = true then (st, [])
  else processOffer st p

/-- Broadcast `webrtc_answer` handler, VideoCall.tsx lines 2812-2850,
success path. -/
def onWebrtcAnswer (st : CallState) (p : AnswerPayload) : CallState × List Effect :=
  if p.from_ = st.clientId then (st, [])
  else if st.isOrganizer = false then (st, [])
  else
    let st1 := { st with connectionStatus := ConnectionStatus.connecting }
    let st2 := { st1 with remoteDescription := some p.answer }
    (st2, Effect.setRemoteDescription p.answer ::
            p.candidates.map Effect.addIceCandidate)

/-- Broadcast `ice_candidate` handler of the mature variant, VideoCall.tsx
lines 2851-2871: echo-guard, buffer when no remote description, else apply. -/
def onIceCandidate (st : CallState) (candidate : IceCandidate) (from_ : String) :
    CallState × List Effect :=
  if from_ = st.clientId then (st, [])
  else
    match st.remoteDescription with
    | none =>
        ({ st with pendingIceCandidates := st.pendingIceCandidates ++ [candidate] },
         [])
    | some _ => (st, [Effect.addIceCandidate candidate])

/-- onconnectionstatechange handler, VideoCall.tsx lines 2196-2283:
`connected` resets the retry counter; `disconnected`/`failed` schedule an
organizer-driven recovery while the budget lasts. -/
def onConnectionStateChange (st : CallState) (s : PeerConnState) :
    CallState × List Effect :=
  match s with
  | PeerConnState.connected =>
      ({ st with connectionStatus := ConnectionStatus.connected, retryCount := 0 },
       [])
  | PeerConnState.connecting =>
      ({ st with connectionStatus := ConnectionStatus.connecting }, [])
  | PeerConnState.disconnected =>
      let st1 := { st with connectionStatus := ConnectionStatus.disconnected,
                           isRemoteConnected := false }
      if st1.retryCount < maxRetries ∧ st1.isOrganizer = true then
        let st2 := { st1 with retryCount := st1.retryCount + 1 }
        (st2, [Effect.toast, Effect.scheduleCreateOffer (2000 * st2.retryCount)])
      else if st1.retryCount ≥ maxRetries then (st1, [Effect.toast])
      else (st1, [])
  | PeerConnState.failed =>
      let st1 := { st with connectionStatus := ConnectionStatus.failed,
                           isRemoteConnected := false }
      if st1.retryCount < maxRetries ∧ st1.isOrganizer = true then
        let st2 := { st1 with retryCount := st1.retryCount + 1 }
        (st2, [Effect.toast, Effect.scheduleIceRestartOffer 1000])
      else (st1, [Effect.toast])
  | PeerConnState.closed =>
      ({ st with connectionStatus := ConnectionStatus.disconnected,
                 isRemoteConnected := false }, [])
  | PeerConnState.fresh => (st, [])

/-- createOffer, VideoCall.tsx lines 2398-2468.  `ok` is true when the WebRTC
engine calls succeed; the catch branch resets the one-shot guard and, while
the budget lasts, schedules an exponential-backoff retry (delay computed from
the counter before its increment, as in the source). -/
def createOffer (st : CallState) (ok : Bool) : CallState × List Effect :=
  if st.hasCreatedOffer then (st, [])
  else
    let st1 := { st with hasCreatedOffer := true,
                         connectionStatus := ConnectionStatus.signaling }
    if ok then
      ({ st1 with offerSent := true },
       [Effect.send (WireMsg.webrtc_offer st.clientId)])
    else
      let st2 := { st1 with hasCreatedOffer := false,
                            connectionStatus := ConnectionStatus.failed }
      if st2.retryCount < maxRetries then
        ({ st2 with retryCount := st2.retryCount + 1 },
         [Effect.scheduleOfferRetry (1000 * 2 ^ st2.retryCount)])
      else (st2, [])

/-- handleAcceptJoin, VideoCall.tsx lines 2952-2969 (channel available). -/
def handleAcceptJoin (st : CallState) : CallState × List Effect :=
  match st.pendingJoinerId with
  | some j =>
      ({ st with showJoinRequest := false, pendingJoinerId := none },
       [Effect.send (WireMsg.join_approved j), Effect.toast])
  | none => ({ st with showJoinRequest := false, pendingJoinerId := none }, [])

/-- handleRejectJoin, VideoCall.tsx lines 2971-2988 (channel available). -/
def handleRejectJoin (st : CallState) : CallState × List Effect :=
  match st.pendingJoinerId with
  | some j =>
      ({ st with showJoinRequest := false, pendingJoinerId := none },
       [Effect.send (WireMsg.join_rejected j), Effect.toast])
  | none => ({ st with showJoinRequest := false, pendingJoinerId := none }, [])

/-- The events a participant reacts to. -/
inductive BEvent
  | presenceSync (participants : List String)
  | presenceJoin (key : String)
  | presenceLeave (key : String)
  | join_approved (joinerId : String)
  | join_rejected (joinerId : String)
  | joiner_ready (joinerId : String)
  | webrtc_offer (p : OfferPayload)
  | webrtc_answer (p : AnswerPayload)
  | ice_candidate (candidate : IceCandidate) (from_ : String)
  | connectionState (s : PeerConnState)
deriving DecidableEq, Repr

/-- Dispatch of one event to its handler. -/
def step (st : CallState) (ev : BEvent) : CallState × List Effect :=
  match ev with
  | BEvent.presenceSync ps => onPresenceSync st ps
  | BEvent.presenceJoin key => onPresenceJoin st key
  | BEvent.presenceLeave key => onPresenceLeave st key
  | BEvent.join_approved j => onJoinApproved st j
  | BEvent.join_rejected j => onJoinRejected st j
  | BEvent.joiner_ready j => onJoinerReady st j
  | BEvent.webrtc_offer p => onWebrtcOffer st p
  | BEvent.webrtc_answer p => onWebrtcAnswer st p
  | BEvent.ice_candidate c f => onIceCandidate st c f
  | BEvent.connectionState s => onConnectionStateChange st s

/-- Fold of `step` over an event sequence, concatenating the effects. -/
def runEvents : CallState → List BEvent → CallState × List Effect
  | st, [] => (st, [])
  | st, ev :: evs =>
      let r1 := step st ev
      let r2 := runEvents r1.1 evs
      (r2.1, r1.2 ++ r2.2)

/-- Payload of a `webrtc_offer` in the early variant,
`\x7b offer, from \x7d` (VideoCall.tsx lines 331-335): no candidate batch. -/
structure OfferPayloadV1 where
  offer : SessionDesc
  from_ : String
deriving DecidableEq, Repr

/-- Broadcast `webrtc_candidate` handler of the early variant, VideoCall.tsx
lines 544-564: echo-guard; apply immediately when a remote description is
present, otherwise queue into `pendingIceCandidates`. -/
def onWebrtcCandidateV1 (st : CallState) (candidate : IceCandidate)
    (from_ : String) : CallState × List Effect :=
  if from_ = st.clientId then (st, [])
  else
    match st.remoteDescription with
    | some _ => (st, [Effect.addIceCandidate candidate])
    | none =>
        ({ st with pendingIceCandidates := st.pendingIceCandidates ++ [candidate] },
         [])

/-- Offer-processing body of the early variant, VideoCall.tsx lines 470-500,
success path: set the remote description, apply each pending ICE candidate in
order, empty the buffer, answer. -/
def processOfferV1 (st : CallState) (p : OfferPayloadV1) : CallState × List Effect :=
  let st1 := { st with hasProcessedOffer := true,
                       connectionStatus := ConnectionStatus.signaling }
  let st2 := { st1 with remoteDescription := some p.offer }
  let flushed := st2.pendingIceCandidates.map Effect.addIceCandidate
  let st3 := { st2 with pendingIceCandidates := [] }
  let st4 := { st3 with connectionStatus := ConnectionStatus.connecting }
  (st4,
   Effect.setRemoteDescription p.offer ::
     flushed ++ [Effect.send (WireMsg.webrtc_answer st.clientId)])

/-- Broadcast `webrtc_offer` handler of the early variant, VideoCall.tsx
lines 447-506: echo-guard, organizer-guard, unapproved offers are skipped
(not buffered), one-shot guard, then process. -/
def onWebrtcOfferV1 (st : CallState) (p : OfferPayloadV1) : CallState × List Effect :=
  if p.from_ = st.clientId then (st, [])
  else if st.isOrganizer = true then (st, [])
  else if st.isApproved = false then (st, [])
  else if st.hasProcessedOffer = true then (st, [])
  else processOfferV1 st p

/-- Answer-processing of the early variant, VideoCall.tsx lines 507-543,
success path: organizer applies remote description, flushes pending ICE
candidates in order, empties the buffer. -/
def onWebrtcAnswerV1 (st : CallState) (answer : SessionDesc) (from_ : String) :
    CallState × List Effect :=
  if from_ = st.clientId then (st, [])
  else if st.isOrganizer = false then (st, [])
  else
    let st1 := { st with connectionStatus := ConnectionStatus.connecting }
    let st2 := { st1 with remoteDescription := some answer }
    let flushed := st2.pendingIceCandidates.map Effect.addIceCandidate
    let st3 := { st2 with pendingIceCandidates := [] }
    (st3, Effect.setRemoteDescription answer :: flushed)

/-- Fold of the early-variant candidate handler over a list of candidates all
sent by `f`, concatenating the effects. -/
def runCandidatesV1 (f : String) : CallState → List IceCandidate →
    CallState × List Effect
  | st, [] => (st, [])
  | st, c :: cs =>
      let r1 := onWebrtcCandidateV1 st c f
      let r2 := runCandidatesV1 f r1.1 cs
      (r2.1, r1.2 ++ r2.2)

/-- Number of `webrtc_offer` broadcasts in an effect list. -/
def countOfferBroadcasts (effs : List Effect) : Nat :=
  effs.countP fun e =>
    match e with
    | Effect.send (WireMsg.webrtc_offer _) => true
    | _ => false

/-- Number of remote-description applications in an effect list. -/
def countRemoteDescApplications (effs : List Effect) : Nat :=
  effs.countP fun e =>
    match e with
    | Effect.setRemoteDescription _ => true
    | _ => false

/-- Whether an effect schedules any recovery retry (a deferred createOffer,
an ICE-restart-plus-offer, or the exponential-backoff offer retry). -/
def isRetrySchedule (e : Effect) : Bool :=
  match e with
  | Effect.scheduleCreateOffer _ => true
  | Effect.scheduleIceRestartOffer _ => true
  | Effect.scheduleOfferRetry _ => true
  | _ => false

/-- Number of scheduled recovery retries in an effect list. -/
def countRetrySchedules (effs : List Effect) : Nat :=
  effs.countP isRetrySchedule

/-! ## Session timer

The call-timer useEffect of the mature variant, VideoCall.tsx lines
1946-1995, with `handleExtendTime` (lines 2997-3006).  On entering
`connected` the effect zeroes the duration and re-arms the warning; every
second the interval runs the updater (lines 1955-1979).  A hard stop calls
`navigate` which unmounts the component, whose cleanup clears the interval;
`navigated` records this, and `runTicks` delivers no further tick to an
unmounted timer. -/

/-- State of the call-timer effect: `callDuration` and `maxCallDuration`
React state, the `warningShownRef` and `showTimeWarning` flags, and whether
the hard stop has navigated away. -/
structure TimerState where
  callDuration : Nat
  maxCallDuration : Nat
  warningShown : Bool
  showTimeWarning : Bool
  navigated : Bool
deriving DecidableEq, Repr

/-- Observable side effects of one timer tick. -/
inductive TimerEffect
  | warning
  | hardStop
deriving DecidableEq, Repr

/-- One run of the interval updater, VideoCall.tsx lines 1956-1979: bump the
duration; at exactly 300 seconds remaining fire the one-shot warning; at the
cap fire the hard stop and keep the previous value. -/
def tick (st : TimerState) : TimerState × List TimerEffect :=
  let newDuration := st.callDuration + 1
  let timeRemaining := st.maxCallDuration - newDuration
  let st1 :=
    if timeRemaining = 300 ∧ st.warningShown = false then
      { st with showTimeWarning := true, warningShown := true }
    else st
  let warnEffs :=
    if timeRemaining = 300 ∧ st.warningShown = false then [TimerEffect.warning]
    else []
  if newDuration ≥ st1.maxCallDuration then
    ({ st1 with navigated := true }, warnEffs ++ [TimerEffect.hardStop])
  else
    ({ st1 with callDuration := newDuration }, warnEffs)

/-- Timer state on (re)entering `connected`, VideoCall.tsx lines 1948-1953:
duration zeroed, warning re-armed. -/
def connectedSessionStart (maxCallDuration : Nat) : TimerState :=
  { callDuration := 0, maxCallDuration := maxCallDuration,
    warningShown := false, showTimeWarning := false, navigated := false }

/-- handleExtendTime, VideoCall.tsx lines 2998-3006: add 30 minutes to the
cap, dismiss and re-arm the warning. -/
def handleExtendTime (st : TimerState) : TimerState :=
  { st with maxCallDuration := st.maxCallDuration + 1800,
            showTimeWarning := false, warningShown := false }

/-- Run `n` interval ticks; after the hard stop's navigation the component
is unmounted and its cleanup has cleared the interval, so no tick runs. -/
def runTicks : TimerState → Nat → TimerState × List TimerEffect
  | st, 0 => (st, [])
  | st, n + 1 =>
      if st.navigated then (st, [])
      else
        let r1 := tick st
        let r2 := runTicks r1.1 n
        (r2.1, r1.2 ++ r2.2)

/-! ## Properties of the role arbiter -/

lemma jsStrLe_refl (a : String) : jsStrLe a a = true := by
  simp [jsStrLe]

lemma jsStrLe_trans : ∀ a b c : String,
    jsStrLe a b = true → jsStrLe b c = true → jsStrLe a c = true := by
  intro a b c hab hbc
  simp only [jsStrLe, decide_eq_true_eq] at *
  exact le_trans hab hbc

lemma jsStrLe_total : ∀ a b : String, (jsStrLe a b || jsStrLe b a) = true := by
  intro a b
  simp only [jsStrLe, Bool.or_eq_true, decide_eq_true_eq]
  exact le_total a.data b.data

lemma jsStrLe_antisymm {a b : String} (hab : jsStrLe a b = true)
    (hba : jsStrLe b a = true) : a = b := by
  simp only [jsStrLe, decide_eq_true_eq] at *
  exact String.ext (le_antisymm hab hba)

/-- The election test succeeds exactly when the local id is a member of the
snapshot that is below every member: the head of the sorted presence list is
the lexicographic minimum. -/
lemma elected_iff (c : String) (l : List String) :
    electedOrganizer c l = true ↔ c ∈ l ∧ ∀ x ∈ l, jsStrLe c x = true := by
  unfold electedOrganizer
  have hperm := List.mergeSort_perm l jsStrLe
  have hsorted := List.sorted_mergeSort jsStrLe_trans jsStrLe_total l
  rw [beq_iff_eq]
  cases hs : l.mergeSort jsStrLe with
  | nil =>
      rw [hs] at hperm
      constructor
      · intro h; simp at h
      · rintro ⟨hc, -⟩
        have : c ∈ ([] : List String) := hperm.symm.mem_iff.mp hc
        simp at this
  | cons a t =>
      rw [hs] at hperm hsorted
      simp only [List.head?_cons, Option.some.injEq]
      constructor
      · intro h; subst h
        refine ⟨hperm.mem_iff.mp (List.mem_cons_self a t), ?_⟩
        intro x hx
        have hx' : x ∈ a :: t := hperm.mem_iff.mpr hx
        rcases List.mem_cons.mp hx' with rfl | hxt
        · exact jsStrLe_refl x
        · exact (List.pairwise_cons.mp hsorted).1 x hxt
      · rintro ⟨hc, hmin⟩
        have ha : a ∈ l := hperm.mem_iff.mp (List.mem_cons_self a t)
        have hca : jsStrLe c a = true := hmin a ha
        have hcmem : c ∈ a :: t := hperm.mem_iff.mpr hc
        rcases List.mem_cons.mp hcmem with rfl | hct
        · rfl
        · exact (jsStrLe_antisymm hca ((List.pairwise_cons.mp hsorted).1 c hct)).symm

lemma elected_exists {ps : List String} (h : ps ≠ []) :
    ∃ c, electedOrganizer c ps = true := by
  have hperm := List.mergeSort_perm ps jsStrLe
  cases hs : ps.mergeSort jsStrLe with
  | nil =>
      rw [hs] at hperm
      exact absurd (List.perm_nil.mp hperm.symm) h
  | cons a t =>
      refine ⟨a, ?_⟩
      unfold electedOrganizer
      rw [hs]
      simp

lemma elected_unique {ps : List String} {c c' : String}
    (hc : electedOrganizer c ps = true) (hc' : electedOrganizer c' ps = true) :
    c = c' := by
  obtain ⟨hmem, hmin⟩ := (elected_iff c ps).mp hc
  obtain ⟨hmem', hmin'⟩ := (elected_iff c' ps).mp hc'
  exact jsStrLe_antisymm (hmin c' hmem') (hmin' c hmem)

lemma elected_perm {l₁ l₂ : List String} (hp : l₁.Perm l₂) (c : String) :
    electedOrganizer c l₁ = electedOrganizer c l₂ := by
  by_cases h1 : electedOrganizer c l₁ = true
  · obtain ⟨hm, hmin⟩ := (elected_iff c l₁).mp h1
    have h2 : electedOrganizer c l₂ = true :=
      (elected_iff c l₂).mpr
        ⟨hp.mem_iff.mp hm, fun x hx => hmin x (hp.mem_iff.mpr hx)⟩
    rw [h1, h2]
  · have h2 : ¬ electedOrganizer c l₂ = true := by
      intro h2
      obtain ⟨hm, hmin⟩ := (elected_iff c l₂).mp h2
      exact h1 ((elected_iff c l₁).mpr
        ⟨hp.mem_iff.mpr hm, fun x hx => hmin x (hp.mem_iff.mp hx)⟩)
    simp only [Bool.not_eq_true] at h1 h2
    rw [h1, h2]

lemma onPresenceSync_isOrganizer (st : CallState) (ps : List String) :
    (onPresenceSync st ps).1.isOrganizer = electedOrganizer st.clientId ps := by
  unfold onPresenceSync
  by_cases h : electedOrganizer st.clientId ps = true
  · simp [h]
  · rw [if_neg h]
    have hb : electedOrganizer st.clientId ps = false := by
      cases hx : electedOrganizer st.clientId ps
      · rfl
      · exact absurd hx h
    split <;> simp [hb]

/-- C1: for every non-empty presence snapshot, the sync handler marks the
local participant Organizer iff its id is the lexicographic minimum of the
snapshot; hence exactly one id is elected for any such snapshot (so the
result is independent of insertion order), the elected id is a member, and
for the snapshot ["a7x", "m2q"] the Organizer is "a7x". -/
theorem C1_organizer_election :
    (∀ (st : CallState) (ps : List String), ps ≠ [] →
        ((onPresenceSync st ps).1.isOrganizer = true ↔
          st.clientId ∈ ps ∧ ∀ x ∈ ps, jsStrLe st.clientId x = true)) ∧
    (∀ ps : List String, ps ≠ [] → ∃! c : String, electedOrganizer c ps = true) ∧
    (∀ (c : String) (ps : List String), electedOrganizer c ps = true → c ∈ ps) ∧
    (∀ (c : String) (l₁ l₂ : List String), l₁.Perm l₂ →
        electedOrganizer c l₁ = electedOrganizer c l₂) ∧
    (electedOrganizer "a7x" ["a7x", "m2q"] = true ∧
      electedOrganizer "m2q" ["a7x", "m2q"] = false) := by
  refine ⟨?_, ?_, ?_, fun c l₁ l₂ hp => elected_perm hp c, ?_, ?_⟩
  · intro st ps _
    rw [onPresenceSync_isOrganizer]
    exact elected_iff st.clientId ps
  · intro ps h
    obtain ⟨c, hc⟩ := elected_exists h
    exact ⟨c, hc, fun c' hc' => elected_unique hc' hc⟩
  · intro c ps hc
    exact ((elected_iff c ps).mp hc).1
  · refine (elected_iff _ _).mpr ⟨by simp, ?_⟩
    intro x hx
    simp only [List.mem_cons, List.mem_singleton] at hx
    rcases hx with rfl | hx
    · decide
    · simp only [List.mem_cons, List.not_mem_nil, or_false] at hx
      subst hx
      decide
  · have hne : electedOrganizer "m2q" ["a7x", "m2q"] ≠ true := by
      intro h
      have := ((elected_iff _ _).mp h).2 "a7x" (by simp)
      exact absurd this (by decide)
    simpa using hne

/-- Witness for C1 at the snapshot ["a7x", "m2q"]. -/
theorem C1_organizer_election_witness :
    ((onPresenceSync (initialCallState "a7x") ["a7x", "m2q"]).1.isOrganizer = true ↔
      "a7x" ∈ ["a7x", "m2q"] ∧ ∀ x ∈ ["a7x", "m2q"], jsStrLe "a7x" x = true) ∧
    (∃! c : String, electedOrganizer c ["a7x", "m2q"] = true) :=
  ⟨C1_organizer_election.1 (initialCallState "a7x") ["a7x", "m2q"] (by simp),
   C1_organizer_election.2.1 ["a7x", "m2q"] (by simp)⟩

/-! ## Preservation lemmas about the event dispatch -/

lemma step_clientId (st : CallState) (ev : BEvent) :
    (step st ev).1.clientId = st.clientId := by
  cases ev <;>
    simp only [step, onPresenceSync, onPresenceJoin, onPresenceLeave,
      onJoinApproved, onJoinRejected, onJoinerReady, onWebrtcOffer,
      onWebrtcAnswer, onIceCandidate, onConnectionStateChange, processOffer] <;>
    (repeat' split) <;> simp

lemma step_hasCreatedOffer (st : CallState) (ev : BEvent) :
    (step st ev).1.hasCreatedOffer = st.hasCreatedOffer := by
  cases ev <;>
    simp only [step, onPresenceSync, onPresenceJoin, onPresenceLeave,
      onJoinApproved, onJoinRejected, onJoinerReady, onWebrtcOffer,
      onWebrtcAnswer, onIceCandidate, onConnectionStateChange, processOffer] <;>
    (repeat' split) <;> simp

lemma countRemoteDescApplications_map_addIce (cs : List IceCandidate) :
    countRemoteDescApplications (cs.map Effect.addIceCandidate) = 0 := by
  induction cs with
  | nil => rfl
  | cons c cs ih =>
      simp only [List.map_cons, countRemoteDescApplications, List.countP_cons] at *
      simp [ih]

/-- C2: a non-Organizer whose approval is still pending does not process a
received offer but stores it as the single pending offer, overwriting any
earlier one (latest wins) and emitting nothing; when the `join_approved`
addressed to it arrives, it becomes Approved, the buffer is emptied and the
buffered offer is processed exactly once (one remote-description application,
and the one-shot flag now blocks any reprocessing). -/
theorem C2_offer_buffering :
    (∀ (st : CallState) (p : OfferPayload),
        p.from_ ≠ st.clientId → st.isOrganizer = false → st.isApproved = false →
          onWebrtcOffer st p = ({ st with pendingOffer := some p }, [])) ∧
    (∀ (st : CallState) (p : OfferPayload),
        st.pendingOffer = some p → st.hasProcessedOffer = false →
          (onJoinApproved st st.clientId).1.isApproved = true ∧
          (onJoinApproved st st.clientId).1.pendingOffer = none ∧
          (onJoinApproved st st.clientId).1.hasProcessedOffer = true ∧
          (onJoinApproved st st.clientId).1.remoteDescription = some p.offer ∧
          countRemoteDescApplications (onJoinApproved st st.clientId).2 = 1) := by
  constructor
  · intro st p hfrom horg happ
    simp [onWebrtcOffer, hfrom, horg, happ]
  · intro st p hpend hproc
    simp only [onJoinApproved, if_pos rfl, hpend, hproc, processOffer,
      countRemoteDescApplications, List.countP_cons, List.countP_append]
    refine ⟨rfl, rfl, rfl, rfl, ?_⟩
    have h0 := countRemoteDescApplications_map_addIce p.candidates
    simp only [countRemoteDescApplications] at h0
    simp [h0]

/-- Witness for C2: a concrete unapproved joiner buffers the offer from
"a7x" and replays it exactly once on approval. -/
theorem C2_offer_buffering_witness :
    (onWebrtcOffer (initialCallState "m2q")
        { offer := { sdpType := "offer", sdp := "v=0" }, candidates := [],
          from_ := "a7x" } =
      ({ initialCallState "m2q" with
          pendingOffer := some { offer := { sdpType := "offer", sdp := "v=0" },
                                 candidates := [], from_ := "a7x" } }, [])) ∧
    (countRemoteDescApplications
        (onJoinApproved
          { initialCallState "m2q" with
              pendingOffer := some { offer := { sdpType := "offer", sdp := "v=0" },
                                     candidates := [], from_ := "a7x" } }
          "m2q").2 = 1) :=
  ⟨C2_offer_buffering.1 (initialCallState "m2q")
      { offer := { sdpType := "offer", sdp := "v=0" }, candidates := [],
        from_ := "a7x" }
      (by decide) rfl rfl,
   (C2_offer_buffering.2
      { initialCallState "m2q" with
          pendingOffer := some { offer := { sdpType := "offer", sdp := "v=0" },
                                 candidates := [], from_ := "a7x" } }
      { offer := { sdpType := "offer", sdp := "v=0" }, candidates := [],
        from_ := "a7x" }
      rfl rfl).2.2.2.2⟩

/-- C3: with the guard clear, a successful create-offer broadcasts exactly
one offer and sets the one-shot guard; a second invocation on the same
negotiation session is a no-op (so the pair broadcasts exactly one offer),
and no channel, presence or connection-state handler of the session ever
resets the guard — only a reconnect (a fresh negotiation session, or the
error branch excluded here) can. -/
theorem C3_create_offer_idempotent :
    (∀ (st : CallState) (ok2 : Bool), st.hasCreatedOffer = false →
        countOfferBroadcasts (createOffer st true).2 = 1 ∧
        (createOffer st true).1.hasCreatedOffer = true ∧
        createOffer (createOffer st true).1 ok2 = ((createOffer st true).1, []) ∧
        countOfferBroadcasts
          ((createOffer st true).2 ++ (createOffer (createOffer st true).1 ok2).2) =
          1) ∧
    (∀ (st : CallState) (ev : BEvent), st.hasCreatedOffer = true →
        (step st ev).1.hasCreatedOffer = true) := by
  constructor
  · intro st ok2 h
    have h1 : (createOffer st true).1.hasCreatedOffer = true := by
      simp [createOffer, h]
    have h2 : createOffer (createOffer st true).1 ok2 = ((createOffer st true).1, []) := by
      simp [createOffer, h]
    have h3 : countOfferBroadcasts (createOffer st true).2 = 1 := by
      simp [createOffer, h, countOfferBroadcasts]
    refine ⟨h3, h1, h2, ?_⟩
    simp only [h2, countOfferBroadcasts, List.countP_append]
    simpa [countOfferBroadcasts] using h3
  · intro st ev h
    rw [step_hasCreatedOffer]
    exact h

/-- Witness for C3 on a fresh organizer state. -/
theorem C3_create_offer_idempotent_witness :
    countOfferBroadcasts (createOffer (initialCallState "a7x") true).2 = 1 ∧
    createOffer (createOffer (initialCallState "a7x") true).1 true =
      ((createOffer (initialCallState "a7x") true).1, []) :=
  ⟨(C3_create_offer_idempotent.1 (initialCallState "a7x") true rfl).1,
   (C3_create_offer_idempotent.1 (initialCallState "a7x") true rfl).2.2.1⟩

lemma runCandidatesV1_buffers (f : String) (cs : List IceCandidate) :
    ∀ st : CallState, st.remoteDescription = none → f ≠ st.clientId →
      runCandidatesV1 f st cs =
        ({ st with pendingIceCandidates := st.pendingIceCandidates ++ cs }, []) := by
  induction cs with
  | nil => intro st h hf; simp [runCandidatesV1]
  | cons c cs ih =>
      intro st h hf
      simp only [runCandidatesV1, onWebrtcCandidateV1, if_neg hf, h]
      rw [ih { st with pendingIceCandidates := st.pendingIceCandidates ++ [c],
                       remoteDescription := none } rfl hf]
      simp

/-- C4: in the early variant (the one whose `webrtc_candidate` handler and
flush the claim cites), every candidate received from the peer while no
remote description exists is appended to the pending buffer in arrival order
with no application effect, and processing the offer that installs the remote
description applies each buffered candidate exactly once, in arrival order,
immediately after the remote description, leaving the buffer empty. -/
theorem C4_candidate_buffering :
    ∀ (st : CallState) (cs : List IceCandidate) (f : String) (p : OfferPayloadV1),
      st.remoteDescription = none → st.pendingIceCandidates = [] →
      f ≠ st.clientId → p.from_ ≠ st.clientId →
      st.isOrganizer = false → st.isApproved = true → st.hasProcessedOffer = false →
      runCandidatesV1 f st cs = ({ st with pendingIceCandidates := cs }, []) ∧
      onWebrtcOfferV1 (runCandidatesV1 f st cs).1 p =
        ({ (runCandidatesV1 f st cs).1 with
             hasProcessedOffer := true,
             remoteDescription := some p.offer,
             pendingIceCandidates := [],
             connectionStatus := ConnectionStatus.connecting },
         Effect.setRemoteDescription p.offer ::
           cs.map Effect.addIceCandidate ++
             [Effect.send (WireMsg.webrtc_answer st.clientId)]) := by
  intro st cs f p hrd hbuf hf hpf horg happ hproc
  have hrun : runCandidatesV1 f st cs = ({ st with pendingIceCandidates := cs }, []) := by
    rw [runCandidatesV1_buffers f cs st hrd hf, hbuf]
    simp
  refine ⟨hrun, ?_⟩
  rw [hrun]
  simp [onWebrtcOfferV1, processOfferV1, hpf, horg, happ, hproc]

/-- Witness for C4: two candidates from "a7x" buffered by the joiner "m2q"
and flushed, in order, by the offer processing. -/
theorem C4_candidate_buffering_witness :
    runCandidatesV1 "a7x"
        { initialCallState "m2q" with isApproved := true }
        [{ payload := "cand0" }, { payload := "cand1" }] =
      ({ initialCallState "m2q" with
           isApproved := true,
           pendingIceCandidates := [{ payload := "cand0" }, { payload := "cand1" }] },
       []) ∧
    onWebrtcOfferV1
        (runCandidatesV1 "a7x" { initialCallState "m2q" with isApproved := true }
          [{ payload := "cand0" }, { payload := "cand1" }]).1
        { offer := { sdpType := "offer", sdp := "v=0" }, from_ := "a7x" } =
      ({ (runCandidatesV1 "a7x" { initialCallState "m2q" with isApproved := true }
            [{ payload := "cand0" }, { payload := "cand1" }]).1 with
           hasProcessedOffer := true,
           remoteDescription := some { sdpType := "offer", sdp := "v=0" },
           pendingIceCandidates := [],
           connectionStatus := ConnectionStatus.connecting },
       Effect.setRemoteDescription { sdpType := "offer", sdp := "v=0" } ::
         [{ payload := "cand0" }, { payload := "cand1" }].map Effect.addIceCandidate ++
           [Effect.send (WireMsg.webrtc_answer "m2q")]) :=
  C4_candidate_buffering { initialCallState "m2q" with isApproved := true }
    [{ payload := "cand0" }, { payload := "cand1" }] "a7x"
    { offer := { sdpType := "offer", sdp := "v=0" }, from_ := "a7x" }
    rfl rfl (by decide) (by decide) rfl rfl rfl

/-- Sender identity of an inbound signaling message, as justified by the
send sites of the source.  `webrtc_offer`, `webrtc_answer` and
`ice_candidate` carry an explicit `from` field and `joiner_ready` is sent by
the joiner with its own id (VideoCall.tsx lines 2683-2687).  `join_approved`
and `join_rejected` carry no sender field: they are sent only by
`handleAcceptJoin`/`handleRejectJoin` with `joinerId := pendingJoinerId`,
and `pendingJoinerId` is only ever set to a presence key different from the
local id (lines 2569-2573), so a message of these types sent by `id` always
has `joinerId ≠ id`; the accompanying conjuncts of C5 prove this send-site
guarantee inside the model. -/
def sentBy (ev : BEvent) (id : String) : Prop :=
  match ev with
  | BEvent.webrtc_offer p => p.from_ = id
  | BEvent.webrtc_answer p => p.from_ = id
  | BEvent.ice_candidate _ f => f = id
  | BEvent.joiner_ready j => j = id
  | BEvent.join_approved j => j ≠ id
  | BEvent.join_rejected j => j ≠ id
  | _ => False

/-- C5: a signaling message whose sender identity is the local participant is
never acted upon — the handler returns the state unchanged and performs no
effect — for every signaling event type (including the early variant's
`webrtc_candidate`).  The last three conjuncts justify the `sentBy`
convention for `join_approved`/`join_rejected`: the handlers preserve the
invariant that `pendingJoinerId` is never the local id, and under it the
approval/rejection send sites only emit messages whose `joinerId` differs
from the local sender's id. -/
theorem C5_echo_suppression :
    (∀ (st : CallState) (ev : BEvent), sentBy ev st.clientId → step st ev = (st, [])) ∧
    (∀ (st : CallState) (c : IceCandidate),
        onWebrtcCandidateV1 st c st.clientId = (st, [])) ∧
    (∀ (st : CallState) (ev : BEvent),
        st.pendingJoinerId ≠ some st.clientId →
          (step st ev).1.pendingJoinerId ≠ some (step st ev).1.clientId) ∧
    (∀ (st : CallState) (j : String),
        st.pendingJoinerId ≠ some st.clientId →
        Effect.send (WireMsg.join_approved j) ∈ (handleAcceptJoin st).2 →
          j ≠ st.clientId) ∧
    (∀ (st : CallState) (j : String),
        st.pendingJoinerId ≠ some st.clientId →
        Effect.send (WireMsg.join_rejected j) ∈ (handleRejectJoin st).2 →
          j ≠ st.clientId) := by
  refine ⟨?_, ?_, ?_, ?_, ?_⟩
  · intro st ev h
    cases ev with
    | presenceSync ps => exact absurd h not_false
    | presenceJoin key => exact absurd h not_false
    | presenceLeave key => exact absurd h not_false
    | join_approved j => simp [sentBy] at h; simp [step, onJoinApproved, h]
    | join_rejected j => simp [sentBy] at h; simp [step, onJoinRejected, h]
    | joiner_ready j => simp [sentBy] at h; simp [step, onJoinerReady, h]
    | webrtc_offer p => simp [sentBy] at h; simp [step, onWebrtcOffer, h]
    | webrtc_answer p => simp [sentBy] at h; simp [step, onWebrtcAnswer, h]
    | ice_candidate c f => simp [sentBy] at h; simp [step, onIceCandidate, h]
    | connectionState s => exact absurd h not_false
  · intro st c
    simp [onWebrtcCandidateV1]
  · intro st ev hinv
    have hc := step_clientId st ev
    rw [hc]
    cases ev <;>
      simp only [step, onPresenceSync, onPresenceJoin, onPresenceLeave,
        onJoinApproved, onJoinRejected, onJoinerReady, onWebrtcOffer,
        onWebrtcAnswer, onIceCandidate, onConnectionStateChange, processOffer] <;>
      (repeat' split) <;> simp_all
  · intro st j hinv hmem
    cases hp : st.pendingJoinerId with
    | none => simp [handleAcceptJoin, hp] at hmem
    | some j' =>
        simp [handleAcceptJoin, hp] at hmem
        subst hmem
        intro hj
        exact hinv (by rw [hp, hj])
  · intro st j hinv hmem
    cases hp : st.pendingJoinerId with
    | none => simp [handleRejectJoin, hp] at hmem
    | some j' =>
        simp [handleRejectJoin, hp] at hmem
        subst hmem
        intro hj
        exact hinv (by rw [hp, hj])

/-- Witness for C5: a concrete self-sent offer is ignored. -/
theorem C5_echo_suppression_witness :
    step (initialCallState "a7x")
        (BEvent.webrtc_offer
          { offer := { sdpType := "offer", sdp := "v=0" }, candidates := [],
            from_ := "a7x" }) =
      (initialCallState "a7x", []) :=
  C5_echo_suppression.1 (initialCallState "a7x")
    (BEvent.webrtc_offer
      { offer := { sdpType := "offer", sdp := "v=0" }, candidates := [],
        from_ := "a7x" })
    rfl

/-! ## Retry budget and recovery -/

/-- An organizer that has already reached `connected` and then sees four
consecutive `disconnected` transport reports. -/
def exhaustedRun : CallState × List Effect :=
  runEvents
    { initialCallState "a7x" with
        isOrganizer := true,
        isApproved := true,
        connectionStatus := ConnectionStatus.connected }
    [BEvent.connectionState PeerConnState.disconnected,
     BEvent.connectionState PeerConnState.disconnected,
     BEvent.connectionState PeerConnState.disconnected,
     BEvent.connectionState PeerConnState.disconnected]

/-- C6 counterexample: after `maxRetries` consecutive recovery attempts from
`disconnected` without reaching `connected`, the status is `disconnected`,
not the terminal `failed` the claim asserts (the code only ever sets status
`failed` on a transport `failed` report); no further retry is scheduled. -/
theorem C6_retry_budget_counterexample :
    exhaustedRun.1.retryCount = maxRetries ∧
    countRetrySchedules exhaustedRun.2 = 3 ∧
    exhaustedRun.1.connectionStatus = ConnectionStatus.disconnected ∧
    exhaustedRun.1.connectionStatus ≠ ConnectionStatus.failed ∧
    countRetrySchedules
      (step exhaustedRun.1 (BEvent.connectionState PeerConnState.disconnected)).2 = 0 := by
  decide

lemma step_retryCount_le (st : CallState) (ev : BEvent)
    (h : st.retryCount ≤ maxRetries) : (step st ev).1.retryCount ≤ maxRetries := by
  cases ev <;>
    simp only [step, onPresenceSync, onPresenceJoin, onPresenceLeave,
      onJoinApproved, onJoinRejected, onJoinerReady, onWebrtcOffer,
      onWebrtcAnswer, onIceCandidate, onConnectionStateChange, processOffer] <;>
    (repeat' split) <;> simp_all <;> omega

/-- C6 (amended): the retry counter never exceeds `maxRetries` and resets to
0 on reaching `connected`; once the budget is exhausted no handler schedules
any further retry; after exhaustion a transport `failed` report leaves the
terminal `failed` status, while a `disconnected` report leaves status
`disconnected` (not `failed`). -/
theorem C6_retry_budget :
    (∀ (st : CallState) (ev : BEvent),
        st.retryCount ≤ maxRetries → (step st ev).1.retryCount ≤ maxRetries) ∧
    (∀ (st : CallState) (ok : Bool),
        st.retryCount ≤ maxRetries → (createOffer st ok).1.retryCount ≤ maxRetries) ∧
    (∀ st : CallState,
        (step st (BEvent.connectionState PeerConnState.connected)).1.retryCount = 0) ∧
    (∀ st : CallState, st.retryCount ≥ maxRetries →
        countRetrySchedules
            (step st (BEvent.connectionState PeerConnState.disconnected)).2 = 0 ∧
        countRetrySchedules
            (step st (BEvent.connectionState PeerConnState.failed)).2 = 0 ∧
        (step st (BEvent.connectionState PeerConnState.failed)).1.connectionStatus =
          ConnectionStatus.failed ∧
        (step st (BEvent.connectionState PeerConnState.disconnected)).1.connectionStatus =
          ConnectionStatus.disconnected) ∧
    (∀ (st : CallState) (ok : Bool), st.retryCount ≥ maxRetries →
        countRetrySchedules (createOffer st ok).2 = 0) := by
  refine ⟨step_retryCount_le, ?_, ?_, ?_, ?_⟩
  · intro st ok h
    simp only [createOffer]
    (repeat' split) <;> (first | (simp_all; omega) | simp_all)
  · intro st
    simp [step, onConnectionStateChange]
  · intro st h
    have hn : ¬ st.retryCount < maxRetries := Nat.not_lt.mpr h
    refine ⟨?_, ?_, ?_, ?_⟩ <;>
      simp [step, onConnectionStateChange, hn, h, countRetrySchedules, isRetrySchedule]
  · intro st ok h
    have hn : ¬ st.retryCount < maxRetries := Nat.not_lt.mpr h
    simp only [createOffer]
    (repeat' split) <;> simp_all [countRetrySchedules, isRetrySchedule]

/-- Witness for C6 (amended) at an exhausted concrete state. -/
theorem C6_retry_budget_witness :
    countRetrySchedules
        (step { initialCallState "a7x" with isOrganizer := true, retryCount := 3 }
          (BEvent.connectionState PeerConnState.disconnected)).2 = 0 ∧
    (step { initialCallState "a7x" with isOrganizer := true, retryCount := 3 }
        (BEvent.connectionState PeerConnState.failed)).1.connectionStatus =
      ConnectionStatus.failed :=
  ⟨(C6_retry_budget.2.2.2.1
      { initialCallState "a7x" with isOrganizer := true, retryCount := 3 }
      (by decide)).1,
   (C6_retry_budget.2.2.2.1
      { initialCallState "a7x" with isOrganizer := true, retryCount := 3 }
      (by decide)).2.2.1⟩

/-- C7: only the Organizer drives reconnection.  Within the budget, a
`disconnected` report makes the organizer bump the counter and schedule a new
offer after a linear-backoff delay of 2000ms times the attempt number, while
a non-Organizer schedules nothing and leaves the counter untouched; a failed
create-offer retries itself with exponential backoff 1000ms times 2^attempt
(the attempt count before the increment, as in the source). -/
theorem C7_organizer_reconnection :
    (∀ st : CallState, st.isOrganizer = true → st.retryCount < maxRetries →
        step st (BEvent.connectionState PeerConnState.disconnected) =
          ({ st with connectionStatus := ConnectionStatus.disconnected,
                     isRemoteConnected := false,
                     retryCount := st.retryCount + 1 },
           [Effect.toast, Effect.scheduleCreateOffer (2000 * (st.retryCount + 1))])) ∧
    (∀ st : CallState, st.isOrganizer = false →
        (step st (BEvent.connectionState PeerConnState.disconnected)).1.retryCount =
          st.retryCount ∧
        countRetrySchedules
          (step st (BEvent.connectionState PeerConnState.disconnected)).2 = 0) ∧
    (∀ st : CallState, st.hasCreatedOffer = false → st.retryCount < maxRetries →
        createOffer st false =
          ({ st with connectionStatus := ConnectionStatus.failed,
                     retryCount := st.retryCount + 1 },
           [Effect.scheduleOfferRetry (1000 * 2 ^ st.retryCount)])) := by
  refine ⟨?_, ?_, ?_⟩
  · intro st horg hcount
    simp [step, onConnectionStateChange, horg, hcount]
  · intro st horg
    constructor <;>
      · simp only [step, onConnectionStateChange]
        (repeat' split) <;> simp_all [countRetrySchedules, isRetrySchedule]
  · intro st hguard hcount
    simp [createOffer, hguard, hcount]

/-- Witness for C7: a concrete organizer schedules the first linear-backoff
retry at 2000ms, and a concrete non-organizer schedules nothing. -/
theorem C7_organizer_reconnection_witness :
    step { initialCallState "a7x" with isOrganizer := true }
        (BEvent.connectionState PeerConnState.disconnected) =
      ({ initialCallState "a7x" with
           isOrganizer := true,
           connectionStatus := ConnectionStatus.disconnected,
           isRemoteConnected := false,
           retryCount := 1 },
       [Effect.toast, Effect.scheduleCreateOffer 2000]) ∧
    countRetrySchedules
      (step (initialCallState "m2q")
        (BEvent.connectionState PeerConnState.disconnected)).2 = 0 :=
  ⟨C7_organizer_reconnection.1 { initialCallState "a7x" with isOrganizer := true }
      rfl (by decide),
   (C7_organizer_reconnection.2.1 (initialCallState "m2q") rfl).2⟩

/-! ## Session timer proofs -/

lemma runTicks_navigated (st : TimerState) (n : Nat) (h : st.navigated = true) :
    runTicks st n = (st, []) := by
  cases n <;> simp [runTicks, h]

lemma runTicks_succ (st : TimerState) (n : Nat) (h : ¬ st.navigated = true) :
    runTicks st (n + 1) =
      ((runTicks (tick st).1 n).1, (tick st).2 ++ (runTicks (tick st).1 n).2) := by
  simp [runTicks, h]

lemma runTicks_add (st : TimerState) (m n : Nat) :
    runTicks st (m + n) =
      ((runTicks (runTicks st m).1 n).1,
        (runTicks st m).2 ++ (runTicks (runTicks st m).1 n).2) := by
  induction m generalizing st with
  | zero => simp [runTicks]
  | succ m ih =>
      by_cases h : st.navigated = true
      · simp [runTicks_navigated _ _ h]
      · have hmn : m + 1 + n = (m + n) + 1 := by omega
        rw [hmn, runTicks_succ st (m + n) h, ih (tick st).1, runTicks_succ st m h]
        simp

/-- A tick that neither warns (remaining time differs from 300) nor stops
just increments the duration and emits nothing. -/
lemma tick_quiet (st : TimerState)
    (hrem : st.maxCallDuration - (st.callDuration + 1) ≠ 300)
    (hlt : st.callDuration + 1 < st.maxCallDuration) :
    tick st = ({ st with callDuration := st.callDuration + 1 }, []) := by
  have hc : ¬ (st.maxCallDuration - (st.callDuration + 1) = 300 ∧
      st.warningShown = false) := fun hx => hrem hx.1
  simp only [tick, if_neg hc]
  rw [if_neg (by omega : ¬ st.callDuration + 1 ≥ st.maxCallDuration)]

/-- A tick with the warning already shown and the cap not yet reached also
just increments the duration. -/
lemma tick_quiet_shown (st : TimerState) (h1 : st.warningShown = true)
    (hlt : st.callDuration + 1 < st.maxCallDuration) :
    tick st = ({ st with callDuration := st.callDuration + 1 }, []) := by
  have hc : ¬ (st.maxCallDuration - (st.callDuration + 1) = 300 ∧
      st.warningShown = false) := by
    intro hx
    rw [h1] at hx
    exact absurd hx.2 (by simp)
  simp only [tick, if_neg hc]
  rw [if_neg (by omega : ¬ st.callDuration + 1 ≥ st.maxCallDuration)]

/-- The tick at exactly 300 remaining seconds fires the one-shot warning. -/
lemma tick_warning (st : TimerState) (h1 : st.warningShown = false)
    (h2 : st.maxCallDuration = st.callDuration + 301) :
    tick st = ({ st with callDuration := st.callDuration + 1,
                         warningShown := true, showTimeWarning := true },
               [TimerEffect.warning]) := by
  have hc : st.maxCallDuration - (st.callDuration + 1) = 300 ∧
      st.warningShown = false := ⟨by omega, h1⟩
  simp only [tick, if_pos hc]
  split_ifs with hge
  · exfalso
    simp only at hge
    omega
  · rfl

/-- The tick whose increment reaches the cap fires the hard stop, keeps the
previous duration, and navigates away (unmounting the timer). -/
lemma tick_hardStop (st : TimerState)
    (h : st.callDuration + 1 = st.maxCallDuration) :
    tick st = ({ st with navigated := true }, [TimerEffect.hardStop]) := by
  have hc : ¬ (st.maxCallDuration - (st.callDuration + 1) = 300 ∧
      st.warningShown = false) := by
    intro hx
    have := hx.1
    omega
  simp only [tick, if_neg hc]
  rw [if_pos (by omega : st.callDuration + 1 ≥ st.maxCallDuration)]
  simp

/-- In the stretch more than 300 seconds before the cap, with the warning
still armed, ticks only increment the duration and emit nothing. -/
lemma runTicks_quiet (n : Nat) :
    ∀ st : TimerState, st.navigated = false →
      st.callDuration + n + 300 < st.maxCallDuration →
      runTicks st n = ({ st with callDuration := st.callDuration + n }, []) := by
  induction n with
  | zero => intro st h1 h3; simp [runTicks]
  | succ n ih =>
      intro st h1 h3
      have hnav : ¬ st.navigated = true := by simp [h1]
      rw [runTicks_succ st n hnav, tick_quiet st (by omega) (by omega)]
      rw [ih { st with callDuration := st.callDuration + 1 } h1 (by simp; omega)]
      have harith : st.callDuration + 1 + n = st.callDuration + (n + 1) := by omega
      simp [harith]

/-- After the warning has fired, ticks strictly before the cap only increment
the duration and emit nothing. -/
lemma runTicks_after_warning (n : Nat) :
    ∀ st : TimerState, st.navigated = false → st.warningShown = true →
      st.callDuration + n < st.maxCallDuration →
      runTicks st n = ({ st with callDuration := st.callDuration + n }, []) := by
  induction n with
  | zero => intro st h1 h2 h3; simp [runTicks]
  | succ n ih =>
      intro st h1 h2 h3
      have hnav : ¬ st.navigated = true := by simp [h1]
      rw [runTicks_succ st n hnav, tick_quiet_shown st h2 (by omega)]
      rw [ih { st with callDuration := st.callDuration + 1 } h1 h2 (by simp; omega)]
      have harith : st.callDuration + 1 + n = st.callDuration + (n + 1) := by omega
      simp [harith]

lemma runTicks_add_state (st st1 : TimerState) (m n : Nat) (e1 : List TimerEffect)
    (h : runTicks st m = (st1, e1)) :
    runTicks st (m + n) = ((runTicks st1 n).1, e1 ++ (runTicks st1 n).2) := by
  rw [runTicks_add, h]

lemma runTicks_one (st : TimerState) (h : ¬ st.navigated = true) :
    runTicks st 1 = tick st := by
  have e1 : (1 : Nat) = 0 + 1 := rfl
  rw [e1, runTicks_succ st 0 h]
  simp [runTicks]

/-- The default 1800s session: after 1500 ticks the warning has fired exactly
once (at 300 seconds remaining) and the duration shows 1500. -/
lemma runTicks_default_1500 :
    runTicks (connectedSessionStart 1800) 1500 =
      ({ callDuration := 1500, maxCallDuration := 1800, warningShown := true,
         showTimeWarning := true, navigated := false }, [TimerEffect.warning]) := by
  have h0 : runTicks (connectedSessionStart 1800) 1499 =
      ({ callDuration := 1499, maxCallDuration := 1800, warningShown := false,
         showTimeWarning := false, navigated := false }, []) := by
    have h := runTicks_quiet 1499 (connectedSessionStart 1800) rfl
      (by norm_num [connectedSessionStart])
    norm_num [connectedSessionStart] at h
    exact h
  have e : (1500 : Nat) = 1499 + 1 := by norm_num
  rw [e, runTicks_add_state _ _ 1499 1 _ h0]
  rw [runTicks_one _ (by simp)]
  rw [tick_warning _ rfl (by norm_num)]
  norm_num

/-- The default 1800s session: after 1800 ticks the warning and the hard stop
have each fired exactly once and the timer has navigated away. -/
lemma runTicks_default_1800 :
    runTicks (connectedSessionStart 1800) 1800 =
      ({ callDuration := 1799, maxCallDuration := 1800, warningShown := true,
         showTimeWarning := true, navigated := true },
       [TimerEffect.warning, TimerEffect.hardStop]) := by
  have h299 : runTicks
      ({ callDuration := 1500, maxCallDuration := 1800, warningShown := true,
         showTimeWarning := true, navigated := false } : TimerState)
      299 =
      ({ callDuration := 1799, maxCallDuration := 1800, warningShown := true,
         showTimeWarning := true, navigated := false }, []) := by
    have h := runTicks_after_warning 299
      ({ callDuration := 1500, maxCallDuration := 1800, warningShown := true,
         showTimeWarning := true, navigated := false } : TimerState)
      rfl rfl (by norm_num)
    norm_num at h
    exact h
  have e : (1800 : Nat) = 1500 + 300 := by norm_num
  rw [e, runTicks_add_state _ _ 1500 300 _ runTicks_default_1500]
  have e2 : (300 : Nat) = 299 + 1 := by norm_num
  rw [e2, runTicks_add_state _ _ 299 1 _ h299]
  rw [runTicks_one _ (by simp)]
  rw [tick_hardStop _ (by norm_num)]
  norm_num

/-- Extending at 1500s re-arms the warning; over the following 1801 ticks it
fires exactly once more, at 300 seconds before the new 3600s cap. -/
lemma runTicks_extended_1801 :
    runTicks (handleExtendTime (runTicks (connectedSessionStart 1800) 1500).1) 1801 =
      ({ callDuration := 3301, maxCallDuration := 3600, warningShown := true,
         showTimeWarning := true, navigated := false }, [TimerEffect.warning]) := by
  have hstart : handleExtendTime (runTicks (connectedSessionStart 1800) 1500).1 =
      ({ callDuration := 1500, maxCallDuration := 3600, warningShown := false,
         showTimeWarning := false, navigated := false } : TimerState) := by
    rw [runTicks_default_1500]
    norm_num [handleExtendTime]
  rw [hstart]
  have hq : runTicks
      ({ callDuration := 1500, maxCallDuration := 3600, warningShown := false,
         showTimeWarning := false, navigated := false } : TimerState)
      1799 =
      ({ callDuration := 3299, maxCallDuration := 3600, warningShown := false,
         showTimeWarning := false, navigated := false }, []) := by
    have h := runTicks_quiet 1799
      ({ callDuration := 1500, maxCallDuration := 3600, warningShown := false,
         showTimeWarning := false, navigated := false } : TimerState)
      rfl (by norm_num)
    norm_num at h
    exact h
  have hw1 : runTicks
      ({ callDuration := 3299, maxCallDuration := 3600, warningShown := false,
         showTimeWarning := false, navigated := false } : TimerState)
      1 =
      ({ callDuration := 3300, maxCallDuration := 3600, warningShown := true,
         showTimeWarning := true, navigated := false }, [TimerEffect.warning]) := by
    rw [runTicks_one _ (by simp)]
    rw [tick_warning _ rfl (by norm_num)]
  have e : (1801 : Nat) = 1799 + 2 := by norm_num
  rw [e, runTicks_add_state _ _ 1799 2 _ hq]
  have e2 : (2 : Nat) = 1 + 1 := by norm_num
  rw [e2, runTicks_add_state _ _ 1 1 _ hw1]
  rw [runTicks_one _ (by simp)]
  rw [tick_quiet_shown _ rfl (by norm_num)]
  norm_num

/-- C8: the timer state on (re)entering `connected` has duration zero and
the warning re-armed; over the default 1800s session the warning and the
hard stop each fire exactly once (the effect trace of 1800 ticks is exactly
one warning followed by one hard stop) and the session has navigated away;
ticks delivered after navigation do nothing, so any longer tick sequence
produces the same single stop; an operator extension adds a fixed 1800s to
the cap and re-arms the one-shot warning, which then fires exactly once more
at 300 seconds before the new cap. -/
theorem C8_call_timer :
    ((connectedSessionStart 1800).callDuration = 0 ∧
      (connectedSessionStart 1800).warningShown = false) ∧
    ((runTicks (connectedSessionStart 1800) 1800).2 =
        [TimerEffect.warning, TimerEffect.hardStop] ∧
      (runTicks (connectedSessionStart 1800) 1800).1.navigated = true) ∧
    (∀ (st : TimerState) (n : Nat), st.navigated = true → runTicks st n = (st, [])) ∧
    (∀ m : Nat, runTicks (connectedSessionStart 1800) (1800 + m) =
        runTicks (connectedSessionStart 1800) 1800) ∧
    (∀ st : TimerState, handleExtendTime st =
        { st with maxCallDuration := st.maxCallDuration + 1800,
                  showTimeWarning := false, warningShown := false }) ∧
    ((runTicks (handleExtendTime (runTicks (connectedSessionStart 1800) 1500).1) 1801).2 =
      [TimerEffect.warning]) := by
  refine ⟨⟨rfl, rfl⟩, ⟨?_, ?_⟩, runTicks_navigated, ?_, fun st => rfl, ?_⟩
  · rw [runTicks_default_1800]
  · rw [runTicks_default_1800]
  · intro m
    rw [runTicks_add, runTicks_default_1800]
    rw [runTicks_navigated _ m rfl]
    simp
  · rw [runTicks_extended_1801]

/-- Witness for C8: a navigated (unmounted) timer absorbs further ticks. -/
theorem C8_call_timer_witness :
    runTicks
        { callDuration := 7, maxCallDuration := 1800, warningShown := false,
          showTimeWarning := false, navigated := true } 5 =
      ({ callDuration := 7, maxCallDuration := 1800, warningShown := false,
          showTimeWarning := false, navigated := true }, []) :=
  C8_call_timer.2.2.1
    { callDuration := 7, maxCallDuration := 1800, warningShown := false,
      showTimeWarning := false, navigated := true } 5 rfl

/-! ## Approval monotonicity -/

/-- C9: the local approved flag starts false; every handler only ever raises
it (once Approved, always Approved for the rest of the channel session), and
a step can raise it only on a presence sync that elects the local participant
Organizer or on a `join_approved` addressed to it; the create-offer operation
and the organizer-side accept/reject entry points never change it. -/
theorem C9_approval_monotone :
    (∀ c : String, (initialCallState c).isApproved = false) ∧
    (∀ (st : CallState) (ev : BEvent),
        st.isApproved = true → (step st ev).1.isApproved = true) ∧
    (∀ (st : CallState) (ev : BEvent),
        (step st ev).1.isApproved = true →
          st.isApproved = true ∨
          (∃ ps, ev = BEvent.presenceSync ps ∧
            electedOrganizer st.clientId ps = true) ∨
          ev = BEvent.join_approved st.clientId) ∧
    (∀ (st : CallState) (ok : Bool), (createOffer st ok).1.isApproved = st.isApproved) ∧
    (∀ st : CallState, (handleAcceptJoin st).1.isApproved = st.isApproved) ∧
    (∀ st : CallState, (handleRejectJoin st).1.isApproved = st.isApproved) := by
  refine ⟨fun c => rfl, ?_, ?_, ?_, ?_, ?_⟩
  · intro st ev h
    cases ev <;>
      simp only [step, onPresenceSync, onPresenceJoin, onPresenceLeave,
        onJoinApproved, onJoinRejected, onJoinerReady, onWebrtcOffer,
        onWebrtcAnswer, onIceCandidate, onConnectionStateChange, processOffer] <;>
      (repeat' split) <;> simp_all
  · intro st ev h
    cases ev with
    | presenceSync ps =>
        by_cases he : electedOrganizer st.clientId ps = true
        · exact Or.inr (Or.inl ⟨ps, rfl, he⟩)
        · left
          simp only [step, onPresenceSync, if_neg he] at h
          split at h <;> simpa using h
    | join_approved j =>
        by_cases hj : j = st.clientId
        · subst hj
          exact Or.inr (Or.inr rfl)
        · left
          simp only [step, onJoinApproved, if_neg hj] at h
          exact h
    | presenceJoin key =>
        left
        simp only [step, onPresenceJoin] at h
        (repeat' split at h) <;> simpa using h
    | presenceLeave key =>
        left
        simp only [step, onPresenceLeave] at h
        (repeat' split at h) <;> simpa using h
    | join_rejected j =>
        left
        simp only [step, onJoinRejected] at h
        (repeat' split at h) <;> simpa using h
    | joiner_ready j =>
        left
        simp only [step, onJoinerReady] at h
        (repeat' split at h) <;> simpa using h
    | webrtc_offer p =>
        left
        simp only [step, onWebrtcOffer, processOffer] at h
        (repeat' split at h) <;> simpa using h
    | webrtc_answer p =>
        left
        simp only [step, onWebrtcAnswer] at h
        (repeat' split at h) <;> simpa using h
    | ice_candidate c f =>
        left
        simp only [step, onIceCandidate] at h
        (repeat' split at h) <;> simpa using h
    | connectionState s =>
        left
        simp only [step, onConnectionStateChange] at h
        (repeat' split at h) <;> simpa using h
  · intro st ok
    simp only [createOffer]
    (repeat' split) <;> simp
  · intro st
    simp only [handleAcceptJoin]
    (repeat' split) <;> simp
  · intro st
    simp only [handleRejectJoin]
    (repeat' split) <;> simp

/-- Witness for C9: approval persists across a concrete later event. -/
theorem C9_approval_monotone_witness :
    (step { initialCallState "m2q" with isApproved := true }
        (BEvent.connectionState PeerConnState.disconnected)).1.isApproved = true :=
  C9_approval_monotone.2.1 { initialCallState "m2q" with isApproved := true }
    (BEvent.connectionState PeerConnState.disconnected) rfl

/-! ## Duration stays below the cap -/

lemma tick_maxCallDuration (st : TimerState) :
    (tick st).1.maxCallDuration = st.maxCallDuration := by
  simp only [tick]
  split_ifs <;> rfl

lemma tick_callDuration_lt (st : TimerState)
    (h : st.callDuration < st.maxCallDuration) :
    (tick st).1.callDuration < st.maxCallDuration := by
  simp only [tick]
  split_ifs with h1 h2 <;> simp_all

/-- C10: the stored duration stays strictly below the cap: a tick from below
the cap lands below the cap (and never changes the cap); the tick whose
increment would reach the cap stores the previous value and fires the hard
stop instead; hence over any number of ticks of a session started below the
cap the displayed duration never reaches the cap. -/
theorem C10_duration_below_cap :
    (∀ st : TimerState, st.callDuration < st.maxCallDuration →
        (tick st).1.callDuration < st.maxCallDuration ∧
        (tick st).1.maxCallDuration = st.maxCallDuration) ∧
    (∀ st : TimerState, st.maxCallDuration ≤ st.callDuration + 1 →
        (tick st).1.callDuration = st.callDuration ∧
        TimerEffect.hardStop ∈ (tick st).2) ∧
    (∀ (st : TimerState) (n : Nat), st.callDuration < st.maxCallDuration →
        (runTicks st n).1.callDuration < (runTicks st n).1.maxCallDuration) := by
  refine ⟨fun st h => ⟨tick_callDuration_lt st h, tick_maxCallDuration st⟩, ?_, ?_⟩
  · intro st h
    have hc : ¬ (st.maxCallDuration - (st.callDuration + 1) = 300 ∧
        st.warningShown = false) := by
      intro hx
      have := hx.1
      omega
    simp only [tick, if_neg hc]
    rw [if_pos (by omega : st.callDuration + 1 ≥ st.maxCallDuration)]
    simp
  · intro st n
    induction n generalizing st with
    | zero => intro h; simpa [runTicks] using h
    | succ n ih =>
        intro h
        by_cases hnav : st.navigated = true
        · rw [runTicks_navigated st _ hnav]
          simpa using h
        · rw [runTicks_succ st n hnav]
          exact ih (tick st).1
            (by rw [tick_maxCallDuration]; exact tick_callDuration_lt st h)

/-- Witness for C10 at the last tick before the cap. -/
theorem C10_duration_below_cap_witness :
    (tick { callDuration := 1799, maxCallDuration := 1800, warningShown := true,
            showTimeWarning := true, navigated := false }).1.callDuration = 1799 ∧
    TimerEffect.hardStop ∈
      (tick { callDuration := 1799, maxCallDuration := 1800, warningShown := true,
              showTimeWarning := true, navigated := false }).2 :=
  C10_duration_below_cap.2.1
    { callDuration := 1799, maxCallDuration := 1800, warningShown := true,
      showTimeWarning := true, navigated := false }
    (by norm_num)

end ConnectNow
